import Mathlib

/-!
Verification of the kegberry administration tool (src/kegberry/app.py)
against its natural-language specification.

The Python source is shallowly embedded below: the command runner
becomes a pure function from an explicit world (environment table plus
an oracle giving each command line its exit code and combined output)
to a result, a list of spawned processes and a log; the workflows
(install, upgrade, delete) become explicit state-transition functions
producing the list of external actions they issue; the dispatcher
becomes a function from the first positional argument to a dispatch
outcome.  Python exceptions become an explicit error type.
-/

namespace Kegberry

/-- A spawned external process: the command line handed to the shell and
the environment mapping passed to it (the subprocess invocation at
app.py lines 131-132, which passes env with the single key PATH). -/
structure Spawn where
  cmd : String
  env : List (String × String)
deriving DecidableEq

/-- Python exceptions relevant to the embedded code.  The class
CommandError is declared at app.py line 110 but is never raised
anywhere in the source; run_command re-raises the original
subprocess.CalledProcessError (line 142).  The constructor is kept so
that the two exception classes can be distinguished in statements. -/
inductive Exc
  | calledProcessError (returncode : Int) (output : String)
  | commandError (returncode : Int) (output : String)
  | typeError
  | keyError
  | attributeError
deriving DecidableEq

/-- Python values returned by run_command: the integer 0 in fake mode
(line 122), the integer return code from subprocess.call (call mode),
or the captured output string from subprocess.check_output.  pyNone
models the bare return at line 135, which is unreachable because
subprocess.call never raises CalledProcessError. -/
inductive PyVal
  | int (n : Int)
  | str (s : String)
  | pyNone
deriving DecidableEq

/-- Log levels of the messages the tool emits: logger.debug,
logger.error, and bare print statements. -/
inductive LogLevel
  | debug
  | error
  | print
deriving DecidableEq

/-- The external world run_command interacts with: the process
environment (os.environ) and, for each command line, the exit code and
combined stdout/stderr the shell would produce for it. -/
structure World where
  environ : List (String × String)
  exec : String → Int × String

/-- Dictionary lookup, modelling Python mapping access (first matching
key wins). -/
def lookupEnv : List (String × String) → String → Option String
  | [], _ => none
  | (k, v) :: rest, key => if k = key then some v else lookupEnv rest key

/-- The full observable outcome of one run_command invocation: the
returned value or raised exception, the processes spawned, and the log
and print output emitted. -/
structure RunOutcome where
  result : Except Exc PyVal
  spawns : List Spawn
  logs : List (LogLevel × String)

/-- Embedding of run_command (app.py lines 119-142).

Source behaviour: log the command at debug level; if FLAGS.fake return
the integer 0 without running anything; otherwise read os.environ for
PATH (KeyError if absent), log PATH and the command, and run the
command through the shell with env set to the single entry PATH.  With
call true the subprocess.call return code is returned as an integer
and nonzero exit is ignored; with call false (check_output) a nonzero
exit raises CalledProcessError carrying the return code and captured
output, which run_command re-raises, printing the output and logging
the command and return code first unless fail_silently is set. -/
def run_command (w : World) (fake : Bool) (cmd : String)
    (failSilently : Bool) (call : Bool) : RunOutcome :=
  let dbg0 : List (LogLevel × String) := [(LogLevel.debug, "Running command: " ++ cmd)]
  if fake then
    { result := Except.ok (PyVal.int 0), spawns := [], logs := dbg0 }
  else
    match lookupEnv w.environ "PATH" with
    | none => { result := Except.error Exc.keyError, spawns := [], logs := dbg0 }
    | some path =>
      let rc := (w.exec cmd).1
      let out := (w.exec cmd).2
      let dbg := dbg0 ++ [(LogLevel.debug, "PATH: " ++ path), (LogLevel.debug, " CMD: " ++ cmd)]
      let sp : List Spawn := [⟨cmd, [("PATH", path)]⟩]
      if call then
        { result := Except.ok (PyVal.int rc), spawns := sp, logs := dbg }
      else if rc = 0 then
        { result := Except.ok (PyVal.str out), spawns := sp, logs := dbg }
      else if failSilently then
        { result := Except.error (Exc.calledProcessError rc out), spawns := sp, logs := dbg }
      else
        { result := Except.error (Exc.calledProcessError rc out), spawns := sp,
          logs := dbg ++ [(LogLevel.print, out), (LogLevel.print, ""),
            (LogLevel.error, "Command returned error:"),
            (LogLevel.error, "  Command: " ++ cmd),
            (LogLevel.error, "  Return code: " ++ toString rc)] }

/-- Recognizer for the CommandError class among raised results; used to
state that run_command never raises that class. -/
def isCommandError : Except Exc PyVal → Bool
  | Except.error (Exc.commandError _ _) => true
  | _ => false

/-- The gflags configuration of the tool (app.py lines 35-69), as a
record: one invocation parses it once and it is immutable afterwards. -/
structure Flags where
  kegbot_user : String
  kegbot_home : String
  pycore : Bool
  mysql_database : String
  mysql_user : String
  mysql_password : String
  upgrade_system_packages : Bool
  kegbot_server_package : String
  kegbot_pycore_package : String
  fake : Bool
  allow_root : Bool
deriving DecidableEq

/-- Name of the server virtualenv directory (app.py line 92). -/
def SERVER_VENV : String := "kegbot-server.venv"

/-- Name of the pycore virtualenv directory (app.py line 93). -/
def PYCORE_VENV : String := "kegbot-pycore.venv"

/-- Embedding of the Python expression cmd.replace(chr(34), chr(92) ++ chr(34))
at app.py line 146: every double-quote character in the command gets a
backslash inserted immediately before it. -/
def escapeQuotes : List Char → List Char
  | [] => []
  | c :: rest =>
    if c = '"' then '\\' :: '"' :: escapeQuotes rest
    else c :: escapeQuotes rest

/-- The wrapped command line built by run_as_kegberry (app.py lines
145-148): the escaped command is embedded between double quotes after
sudo su -l USER -c. -/
def run_as_kegberry_wrapped (user : String) (cmd : List Char) : List Char :=
  ("sudo su -l " ++ user ++ " -c ").data ++ '"' :: (escapeQuotes cmd ++ ['"'])

/-- Shell double-quoted-string scanner: scanning the characters that
follow an opening double quote, returns true when an unescaped double
quote is reached (which would terminate the quoted string there).
The flag records that the previous character was a backslash whose
escape has not yet consumed a character.  Inside shell double quotes a
backslash escapes the following character when that character is
special; for the purpose of detecting an unescaped quote, consuming
the character after every backslash is equivalent (a non-special
character after a backslash is never itself a quote, and cannot start
a new escape that the real shell would not also start). -/
def quoteScan : Bool → List Char → Bool
  | _, [] => false
  | true, _ :: rest => quoteScan false rest
  | false, c :: rest =>
    if c = '\\' then quoteScan true rest
    else if c = '"' then true
    else quoteScan false rest

/-- Does an unescaped double quote occur in the given character
sequence, scanned as the body of a shell double-quoted string. -/
def quoteTerminatesEarly (l : List Char) : Bool := quoteScan false l

/-- List-level test that the first argument is a leading segment of the
second. -/
def listStartsWith : List Char → List Char → Bool
  | [], _ => true
  | _ :: _, [] => false
  | p :: ps, c :: cs => p = c && listStartsWith ps cs

/-- Substring containment on character lists, modelling the Python
membership test needle in haystack for strings. -/
def containsSub (needle : List Char) : List Char → Bool
  | [] => listStartsWith needle []
  | c :: cs => listStartsWith needle (c :: cs) || containsSub needle cs

/-- The Python membership test needle in value, which raises TypeError
when the right operand is an integer (or None) instead of a string
(relevant at app.py line 327 after run_command returned 0 in fake
mode). -/
def pyInOp (needle : String) (v : PyVal) : Except Exc Bool :=
  match v with
  | PyVal.str s => Except.ok (containsSub needle.data s.data)
  | _ => Except.error Exc.typeError

/-- Python str.strip whitespace set: space, tab, linefeed, carriage
return, vertical tab and form feed. -/
def pyWhitespace (c : Char) : Bool :=
  c = ' ' || c = '\t' || c = '\n' || c = '\r' || c = '\x0b' || c = '\x0c'

/-- Embedding of Python str.strip(): drop whitespace from both ends. -/
def pyStrip (s : List Char) : List Char :=
  ((s.dropWhile pyWhitespace).reverse.dropWhile pyWhitespace).reverse

/-- String-valued version of pyStrip. -/
def pyStripS (s : String) : String := ⟨pyStrip s.data⟩

/-- Embedding of command.startswith(chr(95)) at app.py line 206: does
the string begin with an underscore character. -/
def startsWithUnderscore (s : String) : Bool :=
  match s.data with
  | [] => false
  | c :: _ => c = '_'

/-- The methods defined on KegberryApp, the possible results of
attribute lookup by name.  runMeth is the dispatcher method run
itself (app.py line 180); usageMeth and updatePackagesMeth are the
underscore-prefixed helpers _usage and _update_packages. -/
inductive Handler
  | runMeth
  | statusMeth
  | installMeth
  | upgradeMeth
  | kegbotMeth
  | deleteMeth
  | stopMeth
  | startMeth
  | restartMeth
  | usageMeth
  | updatePackagesMeth
deriving DecidableEq

/-- Embedding of getattr(self, command, None) at app.py line 205 on a
KegberryApp instance.  The class defines exactly the eleven methods
below; every attribute inherited from object has a name beginning
with an underscore, so for the dispatch outcome it is equivalent to
map all remaining names to none (both routes end in the usage-and-exit
branch via the underscore test). -/
def getattr_KegberryApp (name : String) : Option Handler :=
  if name = "run" then some Handler.runMeth
  else if name = "status" then some Handler.statusMeth
  else if name = "install" then some Handler.installMeth
  else if name = "upgrade" then some Handler.upgradeMeth
  else if name = "kegbot" then some Handler.kegbotMeth
  else if name = "delete" then some Handler.deleteMeth
  else if name = "stop" then some Handler.stopMeth
  else if name = "start" then some Handler.startMeth
  else if name = "restart" then some Handler.restartMeth
  else if name = "_usage" then some Handler.usageMeth
  else if name = "_update_packages" then some Handler.updatePackagesMeth
  else none

/-- Outcome of dispatching the first positional argument: either the
usage text is printed and the process exits with the given code, or
the named handler method is invoked. -/
inductive DispatchResult
  | usageExit (code : Nat)
  | invoke (h : Handler)
deriving DecidableEq

/-- Embedding of the dispatch logic at app.py lines 202-210: resolve
the command by attribute lookup; if the lookup fails or the name
begins with an underscore, print usage and exit 1; otherwise invoke
the resolved method. -/
def dispatch (command : String) : DispatchResult :=
  match getattr_KegberryApp command with
  | none => DispatchResult.usageExit 1
  | some h =>
    if startsWithUnderscore command then DispatchResult.usageExit 1
    else DispatchResult.invoke h

/-- The public workflow and lifecycle commands listed by the
specification for the dispatcher. -/
def publicCommands : List String :=
  ["status", "install", "upgrade", "kegbot", "delete", "stop", "start", "restart"]

/-- The external actions the workflows issue, one constructor per
distinct command the source runs; arguments record the configuration
values interpolated into the command line. -/
inductive Action
  | aptUpdate
  | aptUpgrade
  | aptInstallRequired
  | aptClean
  | probeDatabase (db : String)
  | createDatabase (db : String)
  | loadTimezones (user : String)
  | useradd (user : String)
  | whichVirtualenv
  | checkVenv (path : String)
  | createVenv (path : String)
  | pipInstall (venv pkg : String)
  | setupKegbot (db dataRoot : String)
  | createApiKey
  | writePycoreFlags
  | chmodPycoreFlags
  | installNginxConf
  | installSupervisorConf
  | supervisorReload
  | nginxRestart
  | pipUpgradeServer (pkg : String)
  | pipUpgradePycore (pkg : String)
  | kegbotUpgrade
  | restartServices
  | stopServices
  | deleteUser (user : String)
  | dropDatabase (db : String)
deriving DecidableEq

/-- The creation steps of the installer: database creation, service
account creation and virtualenv creation.  Every other action is a
probe or a re-applicable step. -/
def isCreation : Action → Bool
  | Action.createDatabase _ => true
  | Action.useradd _ => true
  | Action.createVenv _ => true
  | _ => false

/-- Result of the delete command (app.py lines 352-366): either the
process exits with the given code having run no external command, or
the destructive sequence is executed. -/
structure DeleteRun where
  exitCode : Option Nat
  acts : List Action
deriving DecidableEq

/-- Embedding of KegberryApp.delete (app.py lines 352-366): read the
confirmation string, strip it, and compare against the literal YES;
on mismatch print and exit 1; on match stop services, delete the
service account (failure tolerated via the appended true) and drop
the database. -/
def delete (fl : Flags) (confirm : String) : DeleteRun :=
  if pyStripS confirm ≠ "YES" then
    { exitCode := some 1, acts := [] }
  else
    { exitCode := none,
      acts := [Action.stopServices, Action.deleteUser fl.kegbot_user,
        Action.dropDatabase fl.mysql_database] }

/-- The self-upgrade command run first by the upgrade workflow
(app.py line 325). -/
def selfUpgradeCmd : String := "sudo bash -c \"pip install -U kegberry\""

/-- Observable outcome of the upgrade workflow: normal completion or a
raised exception, the external actions issued after the self-upgrade
step, and the info-level log messages. -/
structure UpgradeOut where
  outcome : Except Exc Unit
  acts : List Action
  logs : List String

/-- Embedding of KegberryApp.upgrade (app.py lines 322-345): run the
self-upgrade command through run_command (honoring FLAGS.fake), then
apply the Python membership test for the substring already up-to-date
to its result; when the substring is present, upgrade the server
package, optionally the pycore package, run kegbot upgrade and restart
services; otherwise log that the tool was upgraded and instruct the
operator to run the command again, doing nothing further. -/
def upgradeRun (w : World) (fl : Flags) : UpgradeOut :=
  let checkLog := "Checking for `kegberry` command update"
  let r := run_command w fl.fake selfUpgradeCmd false false
  match r.result with
  | Except.error e => { outcome := Except.error e, acts := [], logs := [checkLog] }
  | Except.ok output =>
    match pyInOp "already up-to-date" output with
    | Except.error e => { outcome := Except.error e, acts := [], logs := [checkLog] }
    | Except.ok true =>
      { outcome := Except.ok (),
        acts := [Action.pipUpgradeServer fl.kegbot_server_package] ++
          (if fl.pycore then [Action.pipUpgradePycore fl.kegbot_pycore_package] else []) ++
          [Action.kegbotUpgrade, Action.restartServices],
        logs := [checkLog, "Updating kegbot-server distribution ..."] ++
          (if fl.pycore then ["Updating kegbot-pycore distribution ..."] else []) ++
          ["Running `kegberry kegbot upgrade` ...", "Restarting services ...", "Done!"] }
    | Except.ok false =>
      { outcome := Except.ok (), acts := [],
        logs := [checkLog, "Kegberry command upgraded.",
          "Please run \"kegberry upgrade\" again."] }

/-- The external system state the installer reads and writes: which
durable artifacts exist before/after a run.  The tool itself holds no
durable state; these fields model the OS package set, the database
catalog, the user table, the filesystem and the installed
configuration. -/
structure SysState where
  packagesInstalled : Bool
  dbExists : Bool
  tzLoaded : Bool
  userExists : Bool
  serverVenvExists : Bool
  pycoreVenvExists : Bool
  serverPkgInstalled : Bool
  pycorePkgInstalled : Bool
  kegbotConfigured : Bool
  apiKeyProvisioned : Bool
  nginxConfInstalled : Bool
  supervisorConfInstalled : Bool
deriving DecidableEq

/-- Termination mode of one install invocation: normal completion, an
uncaught Python exception, or an explicit sys.exit with the given
code. -/
inductive InstallOutcome
  | completed
  | raised (e : Exc)
  | exited (code : Nat)
deriving DecidableEq

/-- One install invocation: how it terminated, the external actions it
issued (in order), and the system state when it stopped. -/
structure InstallRun where
  outcome : InstallOutcome
  acts : List Action
  final : SysState
deriving DecidableEq

/-- Embedding of KegberryApp.install (app.py lines 240-320) plus its
helper _update_packages (lines 225-238), as a state transition over
SysState.  External probes are interpreted against the state: the
mysqlshow probe (fail_silently, line 246) succeeds exactly when the
database exists, pwd.getpwnam (line 260) succeeds exactly when the
service account exists, and the combined shell existence test in the
virtualenv loop (line 278) creates the directory only when absent.
The which virtualenv step (line 265) is parametrized by the exit code
and output the shell would produce: a nonzero exit makes run_command
raise CalledProcessError, which install does not catch; on a zero
exit with blank stripped output the source logs an error and then
evaluates os.envrion — a misspelled attribute that raises
AttributeError (line 268) before the sys.exit(1) on line 269 can
run.  All other commands are assumed to exit zero (the workflow is
fail-fast; a failure there simply truncates the run). -/
def install (fl : Flags) (s0 : SysState) (whichRc : Int) (whichOut : String) : InstallRun :=
  let acts0 : List Action :=
    [Action.aptUpdate] ++ (if fl.upgrade_system_packages then [Action.aptUpgrade] else []) ++
      [Action.aptInstallRequired, Action.aptClean]
  let s1 := { s0 with packagesInstalled := true }
  let acts1 := acts0 ++ [Action.probeDatabase fl.mysql_database] ++
    (if s1.dbExists then [] else [Action.createDatabase fl.mysql_database])
  let s2 := { s1 with dbExists := true }
  let acts2 := acts1 ++ [Action.loadTimezones fl.mysql_user]
  let s3 := { s2 with tzLoaded := true }
  let acts3 := acts2 ++ (if s3.userExists then [] else [Action.useradd fl.kegbot_user])
  let s4 := { s3 with userExists := true }
  let acts4 := acts3 ++ [Action.whichVirtualenv]
  if whichRc ≠ 0 then
    { outcome := InstallOutcome.raised (Exc.calledProcessError whichRc whichOut),
      acts := acts4, final := s4 }
  else if pyStripS whichOut = "" then
    { outcome := InstallOutcome.raised Exc.attributeError, acts := acts4, final := s4 }
  else
    let serverVenvPath := fl.kegbot_home ++ "/" ++ SERVER_VENV
    let pycoreVenvPath := fl.kegbot_home ++ "/" ++ PYCORE_VENV
    let acts5 := acts4 ++ [Action.checkVenv serverVenvPath] ++
      (if s4.serverVenvExists then [] else [Action.createVenv serverVenvPath])
    let s5 := { s4 with serverVenvExists := true }
    let acts6 := acts5 ++
      (if fl.pycore then
        [Action.checkVenv pycoreVenvPath] ++
          (if s5.pycoreVenvExists then [] else [Action.createVenv pycoreVenvPath])
      else [])
    let s6 := if fl.pycore then { s5 with pycoreVenvExists := true } else s5
    let acts7 := acts6 ++ [Action.pipInstall SERVER_VENV fl.kegbot_server_package] ++
      (if fl.pycore then [Action.pipInstall PYCORE_VENV fl.kegbot_pycore_package] else [])
    let s7 := { s6 with
      serverPkgInstalled := true
      pycorePkgInstalled := (fl.pycore || s6.pycorePkgInstalled) }
    let dataRoot := fl.kegbot_home ++ "/kegbot-data"
    let acts8 := acts7 ++ [Action.setupKegbot fl.mysql_database dataRoot]
    let s8 := { s7 with kegbotConfigured := true }
    let acts9 := acts8 ++ [Action.createApiKey, Action.writePycoreFlags, Action.chmodPycoreFlags]
    let s9 := { s8 with apiKeyProvisioned := true }
    let acts10 := acts9 ++ [Action.installNginxConf, Action.installSupervisorConf]
    let s10 := { s9 with nginxConfInstalled := true, supervisorConfInstalled := true }
    let acts11 := acts10 ++ [Action.supervisorReload, Action.nginxRestart]
    { outcome := InstallOutcome.completed, acts := acts11, final := s10 }

/-- The system state left behind by a completed install with the given
flags: every artifact exists (the pycore artifacts exist whenever the
pycore feature is enabled). -/
def postInstall (fl : Flags) (s : SysState) : Prop :=
  s.packagesInstalled = true ∧ s.dbExists = true ∧ s.tzLoaded = true ∧
    s.userExists = true ∧ s.serverVenvExists = true ∧
    (fl.pycore = true → s.pycoreVenvExists = true) ∧
    s.serverPkgInstalled = true ∧ (fl.pycore = true → s.pycorePkgInstalled = true) ∧
    s.kegbotConfigured = true ∧ s.apiKeyProvisioned = true ∧
    s.nginxConfInstalled = true ∧ s.supervisorConfInstalled = true

/-- A concrete configuration used by the witnesses: the stock defaults
of the flag definitions at app.py lines 35-69 on a system without a
preexisting kegberry home directory. -/
def sampleFlags : Flags :=
  { kegbot_user := "kegbot", kegbot_home := "/home/kegbot", pycore := true,
    mysql_database := "kegbot", mysql_user := "root", mysql_password := "",
    upgrade_system_packages := false, kegbot_server_package := "kegbot==1.2.3",
    kegbot_pycore_package := "kegbot-pycore==1.2.0", fake := false, allow_root := false }

/-- A concrete world whose every command fails with exit code 2 and
output boom; used by witnesses for the failure paths. -/
def failWorld : World :=
  { environ := [("PATH", "/usr/local/bin:/usr/bin:/bin")], exec := fun _ => (2, "boom") }

/-- A concrete world whose every command succeeds with the pip
already-up-to-date message as output; used by the upgrade-gate
witness. -/
def upToDateWorld : World :=
  { environ := [("PATH", "/usr/local/bin:/usr/bin:/bin")],
    exec := fun _ => (0, "Requirement already up-to-date: kegberry in /usr/local/lib") }

/-- The fully provisioned system state, used by the idempotence
witness. -/
def allTrueState : SysState :=
  { packagesInstalled := true, dbExists := true, tzLoaded := true, userExists := true,
    serverVenvExists := true, pycoreVenvExists := true, serverPkgInstalled := true,
    pycorePkgInstalled := true, kegbotConfigured := true, apiKeyProvisioned := true,
    nginxConfInstalled := true, supervisorConfInstalled := true }

end Kegberry

namespace Kegberry

/-- Claim C1: with the global dry-run flag (FLAGS.fake) enabled,
run_command spawns no process and returns a success result, for every
command string and option combination.  The returned value is the
integer 0 (app.py line 122). -/
theorem run_command_dry_run (w : World) (cmd : String) (failSilently call : Bool) :
    (run_command w true cmd failSilently call).result = Except.ok (PyVal.int 0) ∧
    (run_command w true cmd failSilently call).spawns = [] :=
  ⟨rfl, rfl⟩

/-- Claim C3 (amended): when a captured-output command exits nonzero,
run_command fails by re-raising the subprocess.CalledProcessError
carrying the exit code and the captured output; with failSilently
false it first prints the captured output and logs the command and
its return code, and with failSilently true it raises the same
failure with no error-level or printed output. -/
theorem run_command_failure_logging (w : World) (cmd p : String)
    (hpath : lookupEnv w.environ "PATH" = some p)
    (hrc : (w.exec cmd).1 ≠ 0) :
    (run_command w false cmd false false).result =
      Except.error (Exc.calledProcessError (w.exec cmd).1 (w.exec cmd).2) ∧
    (run_command w false cmd false false).logs =
      [(LogLevel.debug, "Running command: " ++ cmd), (LogLevel.debug, "PATH: " ++ p),
        (LogLevel.debug, " CMD: " ++ cmd), (LogLevel.print, (w.exec cmd).2),
        (LogLevel.print, ""), (LogLevel.error, "Command returned error:"),
        (LogLevel.error, "  Command: " ++ cmd),
        (LogLevel.error, "  Return code: " ++ toString (w.exec cmd).1)] ∧
    (run_command w false cmd true false).result =
      Except.error (Exc.calledProcessError (w.exec cmd).1 (w.exec cmd).2) ∧
    (run_command w false cmd true false).logs =
      [(LogLevel.debug, "Running command: " ++ cmd), (LogLevel.debug, "PATH: " ++ p),
        (LogLevel.debug, " CMD: " ++ cmd)] := by
  refine ⟨?_, ?_, ?_, ?_⟩ <;> simp [run_command, hpath, hrc]

/-- Witness for the amended claim C3 at a concrete world in which every
command exits 2 with output boom. -/
theorem run_command_failure_logging_witness :
    lookupEnv failWorld.environ "PATH" = some "/usr/local/bin:/usr/bin:/bin" ∧
    (failWorld.exec "ls").1 ≠ 0 ∧
    (run_command failWorld false "ls" true false).result =
      Except.error (Exc.calledProcessError 2 "boom") := by
  refine ⟨rfl, by decide, ?_⟩
  have h := run_command_failure_logging failWorld "ls" "/usr/local/bin:/usr/bin:/bin"
    rfl (by decide)
  exact h.2.2.1

/-- Claim C3 counterexample: at a concrete failing command the
exception run_command raises is the re-raised CalledProcessError; it
is not an instance of the CommandError class the claim names, a class
the source declares but never raises. -/
theorem run_command_raises_CalledProcessError :
    (run_command failWorld false "mysqlshow kegbot" false false).result =
      Except.error (Exc.calledProcessError 2 "boom") ∧
    isCommandError (run_command failWorld false "mysqlshow kegbot" false false).result = false :=
  ⟨rfl, rfl⟩

/-- Claim C10: outside dry-run mode, every process run_command spawns
receives an environment holding exactly the single variable PATH,
copied from the tool's own environment; looking up any other variable
in that environment fails. -/
theorem run_command_env_only_path (w : World) (cmd p : String) (failSilently call : Bool)
    (hpath : lookupEnv w.environ "PATH" = some p) :
    ∀ s ∈ (run_command w false cmd failSilently call).spawns,
      s.env = [("PATH", p)] ∧ ∀ k, k ≠ "PATH" → lookupEnv s.env k = none := by
  have hsp : (run_command w false cmd failSilently call).spawns = [⟨cmd, [("PATH", p)]⟩] := by
    by_cases hc : call <;> by_cases hr : (w.exec cmd).1 = 0 <;> by_cases hf : failSilently <;>
      simp [run_command, hpath, hc, hr, hf]
  intro s hs
  rw [hsp] at hs
  rcases List.mem_singleton.mp hs with rfl
  refine ⟨rfl, ?_⟩
  intro k hk
  simp [lookupEnv, Ne.symm hk]

/-- Witness for claim C10 at a concrete world and command. -/
theorem run_command_env_only_path_witness :
    (Spawn.mk "ls" [("PATH", "/usr/local/bin:/usr/bin:/bin")]) ∈
      (run_command failWorld false "ls" false false).spawns ∧
    (Spawn.mk "ls" [("PATH", "/usr/local/bin:/usr/bin:/bin")]).env =
      [("PATH", "/usr/local/bin:/usr/bin:/bin")] ∧
    lookupEnv (Spawn.mk "ls" [("PATH", "/usr/local/bin:/usr/bin:/bin")]).env "HOME" = none := by
  have hm : (Spawn.mk "ls" [("PATH", "/usr/local/bin:/usr/bin:/bin")]) ∈
      (run_command failWorld false "ls" false false).spawns := by decide
  have h := run_command_env_only_path failWorld "ls" "/usr/local/bin:/usr/bin:/bin"
    false false rfl _ hm
  exact ⟨hm, h.1, h.2 "HOME" (by decide)⟩

/-- Claim C9: with the dry-run flag enabled, run_command returns the
integer 0, and the upgrade workflow's substring membership test on
that integer raises TypeError: in dry-run mode upgrade never
completes and issues none of its downstream actions, so dry-run is
not a pure no-op for the upgrade command. -/
theorem upgrade_dry_run_type_error (w : World) (fl : Flags) :
    (upgradeRun w { fl with fake := true }).outcome = Except.error Exc.typeError ∧
    (upgradeRun w { fl with fake := true }).acts = [] :=
  ⟨rfl, rfl⟩

/-- Claim C6: outside dry-run mode, when the self-upgrade command
exits zero, the upgrade workflow proceeds — upgrading the dependent
packages, running the internal kegbot upgrade and restarting services
— exactly when the command output contains the substring already
up-to-date; otherwise it issues no further external action and logs
the instruction to run the command again. -/
theorem upgrade_gate (w : World) (fl : Flags) (p : String)
    (hpath : lookupEnv w.environ "PATH" = some p)
    (hfake : fl.fake = false)
    (hrc : (w.exec selfUpgradeCmd).1 = 0) :
    upgradeRun w fl =
      if containsSub ("already up-to-date").data ((w.exec selfUpgradeCmd).2).data then
        { outcome := Except.ok (),
          acts := [Action.pipUpgradeServer fl.kegbot_server_package] ++
            (if fl.pycore then [Action.pipUpgradePycore fl.kegbot_pycore_package] else []) ++
            [Action.kegbotUpgrade, Action.restartServices],
          logs := ["Checking for `kegberry` command update",
            "Updating kegbot-server distribution ..."] ++
            (if fl.pycore then ["Updating kegbot-pycore distribution ..."] else []) ++
            ["Running `kegberry kegbot upgrade` ...", "Restarting services ...", "Done!"] }
      else
        { outcome := Except.ok (), acts := [],
          logs := ["Checking for `kegberry` command update", "Kegberry command upgraded.",
            "Please run \"kegberry upgrade\" again."] } := by
  have hout : (run_command w fl.fake selfUpgradeCmd false false).result =
      Except.ok (PyVal.str (w.exec selfUpgradeCmd).2) := by
    simp [run_command, hfake, hpath, hrc]
  cases hb : containsSub ("already up-to-date").data ((w.exec selfUpgradeCmd).2).data <;>
    simp [upgradeRun, hout, pyInOp, hb]

/-- Witness for claim C6 at a concrete world whose self-upgrade output
contains the already up-to-date message: the workflow proceeds. -/
theorem upgrade_gate_witness :
    lookupEnv upToDateWorld.environ "PATH" = some "/usr/local/bin:/usr/bin:/bin" ∧
    sampleFlags.fake = false ∧
    (upToDateWorld.exec selfUpgradeCmd).1 = 0 ∧
    (upgradeRun upToDateWorld sampleFlags).acts =
      [Action.pipUpgradeServer "kegbot==1.2.3",
        Action.pipUpgradePycore "kegbot-pycore==1.2.0",
        Action.kegbotUpgrade, Action.restartServices] := by
  refine ⟨rfl, rfl, rfl, ?_⟩
  have h := upgrade_gate upToDateWorld sampleFlags "/usr/local/bin:/usr/bin:/bin" rfl rfl rfl
  rw [h]
  rfl

/-- Claim C4 counterexample: the first positional argument run is not
among the eight public workflow and lifecycle commands, yet the
dispatcher resolves it by attribute lookup (to the dispatcher method
itself) and invokes it instead of printing usage and exiting with
code 1. -/
theorem dispatch_run_invoked :
    "run" ∉ publicCommands ∧ dispatch "run" = DispatchResult.invoke Handler.runMeth :=
  ⟨by decide, rfl⟩

/-- Claim C4 (amended): for every first positional argument that is
neither one of the eight public commands nor the dispatcher method
name run itself — in particular for every name beginning with an
underscore — the dispatcher prints usage and exits with code 1
without invoking any command handler. -/
theorem dispatch_unknown_exits (c : String) (h : c ∉ "run" :: publicCommands) :
    dispatch c = DispatchResult.usageExit 1 := by
  simp only [publicCommands, List.mem_cons, List.mem_singleton, not_or, List.not_mem_nil,
    or_false] at h
  obtain ⟨h0, h1, h2, h3, h4, h5, h6, h7, h8⟩ := h
  by_cases hu : c = "_usage"
  · subst hu; rfl
  · by_cases hp : c = "_update_packages"
    · subst hp; rfl
    · simp [dispatch, getattr_KegberryApp, h0, h1, h2, h3, h4, h5, h6, h7, h8, hu, hp]

/-- Witness for the amended claim C4 at a concrete unknown command. -/
theorem dispatch_unknown_exits_witness :
    ("frobnicate" ∉ "run" :: publicCommands) ∧
    dispatch "frobnicate" = DispatchResult.usageExit 1 :=
  ⟨by decide, dispatch_unknown_exits "frobnicate" (by decide)⟩

/-- Claim C5 counterexample: the confirmation input consisting of YES
surrounded by spaces is not the exact literal token YES, yet delete
proceeds to its destructive sequence, because the source strips the
input before comparing it. -/
theorem delete_accepts_padded_yes :
    (" YES " ≠ "YES") ∧
    delete sampleFlags " YES " =
      { exitCode := none,
        acts := [Action.stopServices, Action.deleteUser "kegbot",
          Action.dropDatabase "kegbot"] } :=
  ⟨by decide, rfl⟩

/-- Claim C5 (amended): delete proceeds to its destructive steps
exactly when the whitespace-stripped operator input equals the
literal YES; for every other input it exits with code 1 having run no
external command. -/
theorem delete_confirmation (fl : Flags) (input : String) :
    delete fl input =
      if pyStripS input = "YES" then
        { exitCode := none,
          acts := [Action.stopServices, Action.deleteUser fl.kegbot_user,
            Action.dropDatabase fl.mysql_database] }
      else { exitCode := some 1, acts := [] } := by
  by_cases h : pyStripS input = "YES" <;> simp [delete, h]

/-- Claim C7 counterexample: the two-character command consisting of a
backslash followed by a double quote contains a double-quote
character, but after the replace step the inserted backslash is
itself escaped by the preceding one, so the embedded quote terminates
the outer wrapping string early. -/
theorem escape_backslash_quote_breaks :
    ('"' ∈ ['\\', '"']) ∧ quoteTerminatesEarly (escapeQuotes ['\\', '"']) = true :=
  ⟨by decide, rfl⟩

/-- Helper for the amended claim C7: on a command containing no
backslash, quote escaping leaves no unescaped double quote for the
shell scanner to stop at. -/
theorem quoteTerm_escape_no_backslash :
    ∀ cmd : List Char, '\\' ∉ cmd → quoteTerminatesEarly (escapeQuotes cmd) = false := by
  intro cmd
  induction cmd with
  | nil => intro _; rfl
  | cons c rest ih =>
    intro h
    have hc : c ≠ '\\' := fun hc => h (hc ▸ List.mem_cons_self c rest)
    have hrest : '\\' ∉ rest := fun hr => h (List.mem_cons_of_mem c hr)
    by_cases hq : c = '"'
    · subst hq
      simpa [escapeQuotes, quoteTerminatesEarly, quoteScan] using ih hrest
    · simpa [escapeQuotes, hq, quoteTerminatesEarly, quoteScan, hc] using ih hrest

/-- Claim C7 (amended): for every command string that contains a
double-quote character but no backslash character, run_as_kegberry
escapes each embedded quote before wrapping, and in the wrapped
command line no embedded double quote terminates the outer wrapping
string. -/
theorem escaping_protects_wrapper (user : String) (cmd : List Char)
    (hq : '"' ∈ cmd) (hb : '\\' ∉ cmd) :
    quoteTerminatesEarly (escapeQuotes cmd) = false ∧
    run_as_kegberry_wrapped user cmd =
      ("sudo su -l " ++ user ++ " -c ").data ++ '"' :: (escapeQuotes cmd ++ ['"']) :=
  ⟨quoteTerm_escape_no_backslash cmd hb, rfl⟩

/-- Witness for the amended claim C7 at a concrete quoted command. -/
theorem escaping_protects_wrapper_witness :
    ('"' ∈ ("echo \"hi\"").data) ∧ ('\\' ∉ ("echo \"hi\"").data) ∧
    quoteTerminatesEarly (escapeQuotes ("echo \"hi\"").data) = false :=
  ⟨by decide, by decide,
    (escaping_protects_wrapper "kegbot" ("echo \"hi\"").data (by decide) (by decide)).1⟩

/-- Claim C2: running install against a system already in the
post-install state is non-destructive: the run completes, the
database, service-account and virtualenv creation steps are all
skipped because the corresponding existence probes succeed, and the
final system state equals the initial one. -/
theorem install_idempotent (fl : Flags) (s : SysState) (whichOut : String)
    (hpost : postInstall fl s) (hw : pyStripS whichOut ≠ "") :
    (install fl s 0 whichOut).outcome = InstallOutcome.completed ∧
    (install fl s 0 whichOut).final = s ∧
    ((install fl s 0 whichOut).acts.all fun a => !(isCreation a)) = true := by
  cases s with
  | mk f1 f2 f3 f4 f5 f6 f7 f8 f9 f10 f11 f12 =>
    simp only [postInstall] at hpost
    obtain ⟨h1, h2, h3, h4, h5, h6, h7, h8, h9, h10, h11, h12⟩ := hpost
    subst h1; subst h2; subst h3; subst h4; subst h5; subst h7
    subst h9; subst h10; subst h11; subst h12
    cases hp : fl.pycore with
    | true =>
      have h6p := h6 hp
      have h8p := h8 hp
      subst h6p; subst h8p
      cases hu : fl.upgrade_system_packages <;>
        refine ⟨?_, ?_, ?_⟩ <;> simp [install, hw, hp, hu, isCreation]
    | false =>
      cases hu : fl.upgrade_system_packages <;>
        refine ⟨?_, ?_, ?_⟩ <;> simp [install, hw, hp, hu, isCreation]

/-- Witness for claim C2 at the stock configuration and the fully
provisioned state. -/
theorem install_idempotent_witness :
    postInstall sampleFlags allTrueState ∧ pyStripS "/usr/bin/virtualenv" ≠ "" ∧
    (install sampleFlags allTrueState 0 "/usr/bin/virtualenv").final = allTrueState :=
  ⟨⟨rfl, rfl, rfl, rfl, rfl, fun _ => rfl, rfl, fun _ => rfl, rfl, rfl, rfl, rfl⟩,
    by decide,
    (install_idempotent sampleFlags allTrueState "/usr/bin/virtualenv"
      ⟨rfl, rfl, rfl, rfl, rfl, fun _ => rfl, rfl, fun _ => rfl, rfl, rfl, rfl, rfl⟩
      (by decide)).2.1⟩

/-- Claim C8 (code evaluation): when which virtualenv exits nonzero
because the tool is absent, install terminates by re-raising the
uncaught CalledProcessError — it neither reports the search path nor
calls sys.exit(1); and even on a hypothetical zero exit with blank
output, the missing-tool branch raises AttributeError from the
misspelled os.envrion before its sys.exit(1) can run. -/
theorem install_missing_virtualenv (fl : Flags) (s : SysState)
    (whichRc : Int) (whichOut : String) (h : whichRc ≠ 0) :
    (install fl s whichRc whichOut).outcome =
      InstallOutcome.raised (Exc.calledProcessError whichRc whichOut) ∧
    (∀ c : Nat, (install fl s whichRc whichOut).outcome ≠ InstallOutcome.exited c) ∧
    (install fl s 0 "").outcome = InstallOutcome.raised Exc.attributeError := by
  have h1 : (install fl s whichRc whichOut).outcome =
      InstallOutcome.raised (Exc.calledProcessError whichRc whichOut) := by
    simp [install, h]
  refine ⟨h1, ?_, ?_⟩
  · intro c
    rw [h1]
    intro hc
    cases hc
  · simp [install, pyStripS, pyStrip]

/-- Witness for the claim C8 evaluation at a concrete failing probe. -/
theorem install_missing_virtualenv_witness :
    ((1 : Int) ≠ 0) ∧
    (install sampleFlags allTrueState 1 "").outcome =
      InstallOutcome.raised (Exc.calledProcessError 1 "") :=
  ⟨by decide, (install_missing_virtualenv sampleFlags allTrueState 1 "" (by decide)).1⟩

end Kegberry
